import Mathlib

/-!
Verification of the trial-data ingestion backend (`app.py`).

The program is a single Flask endpoint `POST /api/submit-data` backed by a
SQLAlchemy `TrialResult` table on SQLite.  We embed the handler shallowly:

* JSON values become the inductive type `Json`; Python's truthiness test,
  `dict.get`, iteration and `len` become `truthy`, `pyGet`, `pyIter`, `pyLen`,
  each returning `Except PyErr _` where the Python operation can raise.
* The database is a `List TrialResult`.  `commit` models flushing the pending
  rows on SQLite: `nullable=False` columns (`participant_id`, `task_type`,
  `stimulus_word`, `stimulus_color`) reject NULL with an IntegrityError, while
  the declared `VARCHAR(n)` lengths are NOT enforced (SQLite ignores length
  arguments of string column types).  Ids are assigned by the store at flush
  time, sequentially from the current table size.
* `submit_data_core` is the body of the handler's `try:` block; `submit_data`
  wraps it with the `except Exception` clause, which rolls the session back
  (the store is left as it was) and answers HTTP 500 with `str(e)`.
-/

namespace MciApp

/-- A parsed JSON value, as Python's `json` module materialises it: an object
is a dict with (unique) string keys, numbers are exact. -/
inductive Json where
  | null : Json
  | bool (b : Bool) : Json
  | num (q : Rat) : Json
  | str (s : String) : Json
  | arr (elems : List Json) : Json
  | obj (fields : List (String × Json)) : Json

instance : Inhabited Json := ⟨Json.null⟩

/-- Python exceptions that the handler's code can raise. -/
inductive PyErr where
  | attributeError (msg : String) : PyErr
  | typeError (msg : String) : PyErr
  | integrityError (msg : String) : PyErr
  | badRequest (msg : String) : PyErr

/-- `str(e)` for the exceptions above. -/
def pyStr : PyErr → String
  | .attributeError m => m
  | .typeError m => m
  | .integrityError m => m
  | .badRequest m => m

/-- Python truthiness: `None`, `False`, `0`, `""`, `[]`, `{}` are falsy. -/
def truthy : Json → Bool
  | .null => false
  | .bool b => b
  | .num q => decide (q ≠ 0)
  | .str s => decide (s ≠ "")
  | .arr elems => !elems.isEmpty
  | .obj fields => !fields.isEmpty

/-- `x.isNull` is true exactly on JSON `null` (Python `None`). -/
def Json.isNull : Json → Bool
  | .null => true
  | _ => false

/-- `x.isObj` is true exactly on JSON objects (Python dicts). -/
def Json.isObj : Json → Bool
  | .obj _ => true
  | _ => false

/-- `d.get(k)`: on a dict, the value at `k` or `None`; on anything else Python
raises `AttributeError` (only dicts have a `get` method here). -/
def pyGet (d : Json) (k : String) : Except PyErr Json :=
  match d with
  | .obj fields => .ok ((List.lookup k fields).getD Json.null)
  | _ => .error (.attributeError "object has no attribute get")

/-- `for x in v`: lists yield their elements, strings their characters (as
1-character strings), dicts their keys; other values raise `TypeError`. -/
def pyIter : Json → Except PyErr (List Json)
  | .arr elems => .ok elems
  | .str s => .ok (s.data.map (fun c => Json.str (String.mk [c])))
  | .obj fields => .ok (fields.map (fun p => Json.str p.1))
  | _ => .error (.typeError "object is not iterable")

/-- `len(v)` for sized values; raises `TypeError` otherwise. -/
def pyLen : Json → Except PyErr Nat
  | .arr elems => .ok elems.length
  | .str s => .ok s.length
  | .obj fields => .ok fields.length
  | _ => .error (.typeError "object has no len")

/-- One row of the `trial_result` table.  `id` is `none` until the store
assigns it at flush time; every other column holds the Python value that was
bound to it (SQLite stores values of any shape, so we keep them as `Json`). -/
structure TrialResult where
  id : Option Nat
  participant_id : Json
  task_type : Json
  stimulus_word : Json
  stimulus_color : Json
  response_time : Json
  key_press : Json
  was_correct : Json
  avg_blink_rate : Json

instance : Inhabited TrialResult :=
  ⟨{ id := none, participant_id := Json.null, task_type := Json.null,
     stimulus_word := Json.null, stimulus_color := Json.null,
     response_time := Json.null, key_press := Json.null,
     was_correct := Json.null, avg_blink_rate := Json.null }⟩

/-- An HTTP response: status code plus JSON body. -/
structure Response where
  status : Nat
  body : Json

/-- `jsonify({"status": "error", "message": msg})`. -/
def errorBody (msg : String) : Json :=
  Json.obj [("status", Json.str "error"), ("message", Json.str msg)]

/-- `jsonify({"status": "success", "trials_saved": n})`. -/
def successBody (n : Nat) : Json :=
  Json.obj [("status", Json.str "success"), ("trials_saved", Json.num (n : Rat))]

/-- `TrialResult(participant_id=..., task_type=trial_data.get('task_type'), ...)`:
each `.get` can raise (e.g. `AttributeError` when `trial_data` is not a dict). -/
def buildRow (participant_id : Json) (trial_data : Json) : Except PyErr TrialResult :=
  (pyGet trial_data "task_type").bind fun task_type =>
  (pyGet trial_data "stimulus_word").bind fun stimulus_word =>
  (pyGet trial_data "stimulus_color").bind fun stimulus_color =>
  (pyGet trial_data "response_time").bind fun response_time =>
  (pyGet trial_data "key_press").bind fun key_press =>
  (pyGet trial_data "was_correct").bind fun was_correct =>
  (pyGet trial_data "avg_blink_rate").bind fun avg_blink_rate =>
  .ok { id := none, participant_id := participant_id, task_type := task_type,
        stimulus_word := stimulus_word, stimulus_color := stimulus_color,
        response_time := response_time, key_press := key_press,
        was_correct := was_correct, avg_blink_rate := avg_blink_rate }

/-- The `for trial_data in trials:` loop body: build each row in order,
accumulating the session's pending rows; the first exception aborts the loop. -/
def mapRows (participant_id : Json) : List Json → Except PyErr (List TrialResult)
  | [] => .ok []
  | t :: ts =>
    (buildRow participant_id t).bind fun r =>
    (mapRows participant_id ts).bind fun rs => .ok (r :: rs)

/-- The pure row a dict-shaped trial object produces: absent keys become
`None`/null.  `buildRow` on a dict always succeeds and returns exactly this. -/
def objGet (t : Json) (k : String) : Json :=
  match t with
  | .obj fields => (List.lookup k fields).getD Json.null
  | _ => Json.null

/-- The row built from trial object `t` under top-level id `participant_id`. -/
def mkRow (participant_id : Json) (t : Json) : TrialResult :=
  { id := none, participant_id := participant_id,
    task_type := objGet t "task_type",
    stimulus_word := objGet t "stimulus_word",
    stimulus_color := objGet t "stimulus_color",
    response_time := objGet t "response_time",
    key_press := objGet t "key_press",
    was_correct := objGet t "was_correct",
    avg_blink_rate := objGet t "avg_blink_rate" }

/-- SQLite's NOT NULL check for the columns declared `nullable=False`. -/
def rowNotNullOk (r : TrialResult) : Bool :=
  !r.participant_id.isNull && !r.task_type.isNull &&
  !r.stimulus_word.isNull && !r.stimulus_color.isNull

/-- The store assigns sequential primary keys to the flushed rows. -/
def assignIds : Nat → List TrialResult → List TrialResult
  | _, [] => []
  | n, r :: rs => { r with id := some n } :: assignIds (n + 1) rs

/-- `db.session.commit()` on SQLite: every pending row must satisfy the
NOT NULL constraints (the declared VARCHAR lengths are not enforced by
SQLite); on success the rows are appended with fresh ids, otherwise an
`IntegrityError` is raised and nothing is written. -/
def commit (store pending : List TrialResult) : Except PyErr (List TrialResult) :=
  if pending.all rowNotNullOk then
    .ok (store ++ assignIds (store.length + 1) pending)
  else
    .error (.integrityError "NOT NULL constraint failed: trial_result")

/-- The body of `submit_data`'s `try:` block.  `body = none` models a request
whose payload `request.get_json()` cannot parse (the raised error is caught by
the handler like any other). -/
def submit_data_core (body : Option Json) (store : List TrialResult) :
    Except PyErr (Response × List TrialResult) :=
  match body with
  | none => .error (.badRequest "Failed to decode JSON object")
  | some data =>
    (pyGet data "participant_id").bind fun participant_id =>
    (pyGet data "trials").bind fun trials =>
    if !truthy participant_id || !truthy trials then
      .ok ({ status := 400,
             body := errorBody "Missing participant_id or trials data" }, store)
    else
      (pyIter trials).bind fun items =>
      (mapRows participant_id items).bind fun pending =>
      (commit store pending).bind fun store2 =>
      (pyLen trials).bind fun n =>
      .ok ({ status := 201, body := successBody n }, store2)

/-- The whole handler: the `except Exception` clause rolls the session back
(pending rows are discarded, the store is as before) and answers 500 with
`str(e)` as the message. -/
def submit_data (body : Option Json) (store : List TrialResult) :
    Response × List TrialResult :=
  match submit_data_core body store with
  | .ok r => r
  | .error e => ({ status := 500, body := errorBody (pyStr e) }, store)

/-! ### Concrete sample requests (used to exercise the theorems below) -/

/-- The keys of the spec's §8 concrete-scenario trial (all optional fields
present), with exact rational stand-ins for the float values. -/
def trialFullFields : List (String × Json) :=
  [("task_type", Json.str "stroop_congruent"),
   ("stimulus_word", Json.str "RED"), ("stimulus_color", Json.str "red"),
   ("response_time", Json.num 1), ("key_press", Json.str "r"),
   ("was_correct", Json.bool true), ("avg_blink_rate", Json.num 14)]

/-- A trial object carrying every field. -/
def trialFull : Json := Json.obj trialFullFields

/-- A trial object with only the three required per-trial fields. -/
def trialRequiredOnly : Json :=
  Json.obj [("task_type", Json.str "stroop_congruent"),
    ("stimulus_word", Json.str "RED"), ("stimulus_color", Json.str "red")]

/-- A trial object missing the required `task_type` field. -/
def trialMissingTask : Json :=
  Json.obj [("stimulus_word", Json.str "RED"), ("stimulus_color", Json.str "red")]

/-- A trial object that also carries its own (conflicting) `participant_id`. -/
def trialOtherPid : Json :=
  Json.obj [("participant_id", Json.str "OTHER"),
    ("task_type", Json.str "stroop_congruent"),
    ("stimulus_word", Json.str "RED"), ("stimulus_color", Json.str "red")]

/-- A participant id one character longer than the declared VARCHAR(100). -/
def longPid : String := String.mk (List.replicate 101 'a')

/-- Request body fields: valid submission of `trialFull` for participant P1. -/
def fieldsFull : List (String × Json) :=
  [("participant_id", Json.str "P1"), ("trials", Json.arr [trialFull])]

/-- Request body fields: valid submission of `trialRequiredOnly`. -/
def fieldsRequiredOnly : List (String × Json) :=
  [("participant_id", Json.str "P1"), ("trials", Json.arr [trialRequiredOnly])]

/-- Request body fields: submission whose only trial misses `task_type`. -/
def fieldsMissingTask : List (String × Json) :=
  [("participant_id", Json.str "P1"), ("trials", Json.arr [trialMissingTask])]

/-- Request body fields: over-long participant id with a complete trial. -/
def fieldsLongPid : List (String × Json) :=
  [("participant_id", Json.str longPid), ("trials", Json.arr [trialRequiredOnly])]

/-- Request body fields: `trials` is a (truthy) string, not an array. -/
def fieldsStrTrials : List (String × Json) :=
  [("participant_id", Json.str "P1"), ("trials", Json.str "abc")]

/-- Request body fields: the trial claims a different participant id. -/
def fieldsOtherPid : List (String × Json) :=
  [("participant_id", Json.str "P1"), ("trials", Json.arr [trialOtherPid])]

/-! ### Basic reduction lemmas -/

theorem ebind_ok {α β : Type} (a : α) (f : α → Except PyErr β) :
    (Except.ok a : Except PyErr α).bind f = f a := rfl

theorem ebind_err {α β : Type} (e : PyErr) (f : α → Except PyErr β) :
    (Except.error e : Except PyErr α).bind f = .error e := rfl

theorem isObj_iff (t : Json) : t.isObj = true ↔ ∃ tf, t = Json.obj tf := by
  cases t <;> simp [Json.isObj]

theorem buildRow_obj (pid : Json) (tf : List (String × Json)) :
    buildRow pid (Json.obj tf) = .ok (mkRow pid (Json.obj tf)) := rfl

theorem buildRow_not_obj (pid t : Json) (h : t.isObj = false) :
    buildRow pid t = .error (.attributeError "object has no attribute get") := by
  cases t <;> first | rfl | simp [Json.isObj] at h

theorem mapRows_ok_of_objs (pid : Json) (ts : List Json)
    (h : ∀ t ∈ ts, t.isObj = true) :
    mapRows pid ts = .ok (ts.map (mkRow pid)) := by
  induction ts with
  | nil => rfl
  | cons t ts ih =>
    obtain ⟨tf, rfl⟩ := (isObj_iff t).mp (h t (List.mem_cons_self t ts))
    rw [List.map_cons, mapRows, buildRow_obj, ebind_ok,
      ih (fun u hu => h u (List.mem_cons_of_mem _ hu)), ebind_ok]

theorem mapRows_error_of_nonobj (pid : Json) (ts : List Json)
    (h : ∃ t ∈ ts, t.isObj = false) :
    ∃ e, mapRows pid ts = .error e := by
  induction ts with
  | nil => simp at h
  | cons t ts ih =>
    by_cases hobj : t.isObj = true
    · obtain ⟨u, hu, hbad⟩ := h
      rcases List.mem_cons.mp hu with rfl | hu2
      · rw [hobj] at hbad; cases hbad
      · obtain ⟨e, he⟩ := ih ⟨u, hu2, hbad⟩
        obtain ⟨tf, rfl⟩ := (isObj_iff t).mp hobj
        exact ⟨e, by rw [mapRows, buildRow_obj, ebind_ok, he, ebind_err]⟩
    · have hobj2 : t.isObj = false := by
        cases hb : t.isObj with
        | true => exact absurd hb hobj
        | false => rfl
      exact ⟨.attributeError "object has no attribute get",
        by rw [mapRows, buildRow_not_obj pid t hobj2, ebind_err]⟩

/-! ### Lemmas about the store -/

theorem assignIds_length (n : Nat) (l : List TrialResult) :
    (assignIds n l).length = l.length := by
  induction l generalizing n with
  | nil => rfl
  | cons r rs ih => simp [assignIds, ih]

theorem mem_assignIds (n : Nat) (l : List TrialResult) (r : TrialResult)
    (h : r ∈ assignIds n l) : ∃ m r0, r0 ∈ l ∧ r = { r0 with id := some m } := by
  induction l generalizing n with
  | nil => simp [assignIds] at h
  | cons r0 rs ih =>
    rw [assignIds] at h
    rcases List.mem_cons.mp h with rfl | h2
    · exact ⟨n, r0, List.mem_cons_self r0 rs, rfl⟩
    · obtain ⟨m, r1, hr1, rfl⟩ := ih (n + 1) h2
      exact ⟨m, r1, List.mem_cons_of_mem _ hr1, rfl⟩

theorem assignIds_getElem? (l : List TrialResult) (n i : Nat) :
    (assignIds n l)[i]? = (l[i]?).map (fun r => { r with id := some (n + i) }) := by
  induction l generalizing n i with
  | nil => simp [assignIds]
  | cons r rs ih =>
    cases i with
    | zero => simp [assignIds]
    | succ j =>
      rw [show n + (j + 1) = (n + 1) + j by omega, assignIds,
        List.getElem?_cons_succ, List.getElem?_cons_succ, ih (n + 1) j]

theorem commit_ok (store pending : List TrialResult)
    (h : ∀ r ∈ pending, rowNotNullOk r = true) :
    commit store pending = .ok (store ++ assignIds (store.length + 1) pending) := by
  rw [commit, if_pos]
  rw [List.all_eq_true]
  exact h

theorem commit_integrity_err (store pending : List TrialResult)
    (h : ∃ r ∈ pending, rowNotNullOk r = false) :
    commit store pending =
      .error (.integrityError "NOT NULL constraint failed: trial_result") := by
  rw [commit, if_neg]
  intro hall
  rw [List.all_eq_true] at hall
  obtain ⟨r, hr, hbad⟩ := h
  rw [hall r hr] at hbad
  cases hbad

/-! ### Evaluation of the handler -/

/-- Evaluating the handler on a well-formed submission: the body is a JSON
object carrying a non-empty string `participant_id` and a non-empty array of
trial objects, and every built row passes the NOT NULL check. -/
theorem submit_data_valid_eval (fields : List (String × Json)) (pid : String)
    (ts : List Json) (store : List TrialResult)
    (h1 : List.lookup "participant_id" fields = some (Json.str pid))
    (h2 : pid ≠ "")
    (h3 : List.lookup "trials" fields = some (Json.arr ts))
    (h4 : ts ≠ [])
    (h5 : ∀ t ∈ ts, t.isObj = true)
    (h6 : ∀ t ∈ ts, rowNotNullOk (mkRow (Json.str pid) t) = true) :
    submit_data (some (Json.obj fields)) store =
      ({ status := 201, body := successBody ts.length },
       store ++ assignIds (store.length + 1) (ts.map (mkRow (Json.str pid)))) := by
  have hp : truthy (Json.str pid) = true := by simp [truthy, h2]
  have ht : truthy (Json.arr ts) = true := by
    cases ts with
    | nil => exact absurd rfl h4
    | cons a as => rfl
  have hmap := mapRows_ok_of_objs (Json.str pid) ts h5
  have hall : ∀ r ∈ ts.map (mkRow (Json.str pid)), rowNotNullOk r = true := by
    intro r hr
    obtain ⟨t, ht2, rfl⟩ := List.mem_map.mp hr
    exact h6 t ht2
  have hcommit := commit_ok store (ts.map (mkRow (Json.str pid))) hall
  simp [submit_data, submit_data_core, pyGet, h1, h3, hp, ht, pyIter, hmap,
    hcommit, pyLen, ebind_ok, ebind_err]

/-- Inversion: a run of the `try:` body that does not raise either took the
validation branch (status 400, store untouched) or committed a batch
(status 201, the store extended by the freshly id-ed pending rows). -/
theorem core_ok_cases (body : Option Json) (store : List TrialResult)
    (r : Response × List TrialResult)
    (h : submit_data_core body store = .ok r) :
    (r.1.status = 400 ∧ r.2 = store) ∨
    (r.1.status = 201 ∧
      ∃ pending, r.2 = store ++ assignIds (store.length + 1) pending) := by
  cases body with
  | none => simp [submit_data_core] at h
  | some data =>
    rw [submit_data_core] at h
    cases hpg : pyGet data "participant_id" with
    | error e => rw [hpg, ebind_err] at h; cases h
    | ok pidv =>
      rw [hpg, ebind_ok] at h
      cases htg : pyGet data "trials" with
      | error e => rw [htg, ebind_err] at h; cases h
      | ok trv =>
        rw [htg, ebind_ok] at h
        split at h
        · injection h with h2
          subst h2
          exact Or.inl ⟨rfl, rfl⟩
        · cases hit : pyIter trv with
          | error e => rw [hit, ebind_err] at h; cases h
          | ok items =>
            rw [hit, ebind_ok] at h
            cases hmr : mapRows pidv items with
            | error e => rw [hmr, ebind_err] at h; cases h
            | ok pending =>
              rw [hmr, ebind_ok] at h
              cases hcm : commit store pending with
              | error e => rw [hcm, ebind_err] at h; cases h
              | ok store2 =>
                rw [hcm, ebind_ok] at h
                cases hlen : pyLen trv with
                | error e => rw [hlen, ebind_err] at h; cases h
                | ok n =>
                  rw [hlen, ebind_ok] at h
                  injection h with h2
                  subst h2
                  refine Or.inr ⟨rfl, pending, ?_⟩
                  rw [commit] at hcm
                  split at hcm
                  · injection hcm with h3
                    exact h3.symm
                  · cases hcm

/-! ### Claims -/

/-- C1: for every request whose JSON body has a non-empty `participant_id`
and a non-empty `trials` sequence of N trial objects, if persistence succeeds
(every built row passes the store's NOT NULL check), the endpoint returns
HTTP 201 with body `{"status": "success", "trials_saved": N}`, and exactly N
new `TrialResult` rows with that `participant_id` exist in the store
afterward. -/
theorem C1_valid_batch_saved (fields : List (String × Json)) (pid : String)
    (ts : List Json) (store : List TrialResult)
    (h1 : List.lookup "participant_id" fields = some (Json.str pid))
    (h2 : pid ≠ "")
    (h3 : List.lookup "trials" fields = some (Json.arr ts))
    (h4 : ts ≠ [])
    (h5 : ∀ t ∈ ts, t.isObj = true)
    (h6 : ∀ t ∈ ts, rowNotNullOk (mkRow (Json.str pid) t) = true) :
    ∃ newRows,
      submit_data (some (Json.obj fields)) store =
        ({ status := 201, body := successBody ts.length }, store ++ newRows) ∧
      newRows.length = ts.length ∧
      ∀ r ∈ newRows, r.participant_id = Json.str pid := by
  refine ⟨assignIds (store.length + 1) (ts.map (mkRow (Json.str pid))),
    submit_data_valid_eval fields pid ts store h1 h2 h3 h4 h5 h6, ?_, ?_⟩
  · rw [assignIds_length, List.length_map]
  · intro r hr
    obtain ⟨m, r0, hr0, rfl⟩ := mem_assignIds _ _ _ hr
    obtain ⟨t, ht2, rfl⟩ := List.mem_map.mp hr0
    rfl

/-- C1 witness: the spec's §8 concrete scenario (one full trial for P1). -/
theorem C1_witness :
    ∃ newRows,
      submit_data (some (Json.obj fieldsFull)) [] =
        ({ status := 201, body := successBody 1 }, [] ++ newRows) ∧
      newRows.length = 1 ∧
      ∀ r ∈ newRows, r.participant_id = Json.str "P1" :=
  C1_valid_batch_saved fieldsFull "P1" [trialFull] [] rfl (by decide) rfl
    (List.cons_ne_nil _ _) (by decide) (by decide)

/-- C2: a request whose object body has `participant_id` absent or empty, or
`trials` absent or an empty array, is answered HTTP 400 with exactly the
specified error body, and the store is unchanged. -/
theorem C2_missing_fields_400 (fields : List (String × Json))
    (store : List TrialResult)
    (h : (List.lookup "participant_id" fields = none ∨
          List.lookup "participant_id" fields = some (Json.str "")) ∨
         (List.lookup "trials" fields = none ∨
          List.lookup "trials" fields = some (Json.arr []))) :
    submit_data (some (Json.obj fields)) store =
      ({ status := 400,
         body := errorBody "Missing participant_id or trials data" }, store) := by
  rcases h with (h1 | h1) | (h1 | h1) <;>
    simp [submit_data, submit_data_core, pyGet, ebind_ok, h1, truthy]

/-- C2 witness: the empty JSON object body. -/
theorem C2_witness :
    submit_data (some (Json.obj [])) [] =
      ({ status := 400,
         body := errorBody "Missing participant_id or trials data" }, []) :=
  C2_missing_fields_400 [] [] (Or.inl (Or.inl rfl))

/-- C3: whenever the `try:` body fails (any raised error, during parsing, row
construction or persistence), the endpoint answers HTTP 500 with
`{"status": "error", "message": str(e)}` and the store is exactly as before
(the rollback leaves zero rows from the batch). -/
theorem C3_failure_500_rollback (body : Option Json) (store : List TrialResult)
    (e : PyErr) (h : submit_data_core body store = .error e) :
    submit_data body store =
      ({ status := 500, body := errorBody (pyStr e) }, store) := by
  simp [submit_data, h]

/-- C3 witness: a request whose payload fails to parse as JSON. -/
theorem C3_witness :
    submit_data none [] =
      ({ status := 500,
         body := errorBody (pyStr (PyErr.badRequest "Failed to decode JSON object")) },
       []) :=
  C3_failure_500_rollback none [] (PyErr.badRequest "Failed to decode JSON object") rfl

/-- C4 counterexample: a valid submission (non-empty participant_id,
non-empty trials) whose single trial object misses the required `task_type`
field is NOT persisted and counted as the claim states: the NOT NULL
constraint on the `task_type` column fails the commit, the endpoint answers
500 (not 201), and zero rows are stored. -/
theorem C4_counterexample_required_missing :
    (submit_data (some (Json.obj fieldsMissingTask)) []).1.status = 500 ∧
    (submit_data (some (Json.obj fieldsMissingTask)) []).2 = [] ∧
    ¬ (submit_data (some (Json.obj fieldsMissingTask)) []).1.status = 201 :=
  ⟨rfl, rfl, by decide⟩

/-- C4 (amended): for a valid submission of trial objects, a trial missing
any OPTIONAL field (`response_time`, `key_press`, `was_correct`,
`avg_blink_rate`) is not rejected — null is substituted and, when every trial
has its required fields, the whole batch is persisted and counted; but a
trial whose required fields (`task_type`, `stimulus_word`, `stimulus_color`)
are absent (null in the built row) makes the commit fail: HTTP 500 and no row
of the batch is persisted. -/
theorem C4_required_missing_fails_batch (fields : List (String × Json))
    (pid : String) (ts : List Json) (store : List TrialResult)
    (h1 : List.lookup "participant_id" fields = some (Json.str pid))
    (h2 : pid ≠ "")
    (h3 : List.lookup "trials" fields = some (Json.arr ts))
    (h4 : ts ≠ [])
    (h5 : ∀ t ∈ ts, t.isObj = true) :
    ((∀ t ∈ ts, rowNotNullOk (mkRow (Json.str pid) t) = true) →
      submit_data (some (Json.obj fields)) store =
        ({ status := 201, body := successBody ts.length },
         store ++ assignIds (store.length + 1) (ts.map (mkRow (Json.str pid))))) ∧
    (∀ t ∈ ts, ∀ tf, t = Json.obj tf →
      (List.lookup "response_time" tf = none →
        (mkRow (Json.str pid) t).response_time = Json.null) ∧
      (List.lookup "key_press" tf = none →
        (mkRow (Json.str pid) t).key_press = Json.null) ∧
      (List.lookup "was_correct" tf = none →
        (mkRow (Json.str pid) t).was_correct = Json.null) ∧
      (List.lookup "avg_blink_rate" tf = none →
        (mkRow (Json.str pid) t).avg_blink_rate = Json.null)) ∧
    ((∃ t ∈ ts, rowNotNullOk (mkRow (Json.str pid) t) = false) →
      (submit_data (some (Json.obj fields)) store).1.status = 500 ∧
      (submit_data (some (Json.obj fields)) store).2 = store) := by
  refine ⟨fun h6 => submit_data_valid_eval fields pid ts store h1 h2 h3 h4 h5 h6,
    ?_, ?_⟩
  · rintro t ht2 tf rfl
    exact ⟨fun hh => by simp [mkRow, objGet, hh],
      fun hh => by simp [mkRow, objGet, hh],
      fun hh => by simp [mkRow, objGet, hh],
      fun hh => by simp [mkRow, objGet, hh]⟩
  · intro hex
    obtain ⟨t, ht2, hbad⟩ := hex
    have hp : truthy (Json.str pid) = true := by simp [truthy, h2]
    have htr : truthy (Json.arr ts) = true := by
      cases ts with
      | nil => exact absurd rfl h4
      | cons a as => rfl
    have hmap := mapRows_ok_of_objs (Json.str pid) ts h5
    have hcm := commit_integrity_err store (ts.map (mkRow (Json.str pid)))
      ⟨mkRow (Json.str pid) t, List.mem_map_of_mem _ ht2, hbad⟩
    have heval : submit_data (some (Json.obj fields)) store =
        ({ status := 500,
           body := errorBody "NOT NULL constraint failed: trial_result" },
         store) := by
      simp [submit_data, submit_data_core, pyGet, h1, h3, hp, htr, pyIter,
        hmap, hcm, pyStr, ebind_ok, ebind_err]
    rw [heval]
    exact ⟨rfl, rfl⟩

/-- C4 witness: a trial with only the required fields is persisted, the
absent optional columns stored as null. -/
theorem C4_witness :
    submit_data (some (Json.obj fieldsRequiredOnly)) [] =
      ({ status := 201, body := successBody 1 },
       assignIds 1 ([trialRequiredOnly].map (mkRow (Json.str "P1")))) :=
  (C4_required_missing_fails_batch fieldsRequiredOnly "P1" [trialRequiredOnly]
    [] rfl (by decide) rfl (List.cons_ne_nil _ _) (by decide)).1 (by decide)

/-- C5: the code violates the §3 length constraints — SQLite does not enforce
the declared VARCHAR lengths, so a submission whose `participant_id` has 101
characters succeeds (HTTP 201) and stores a row whose `participant_id`
exceeds the declared 100-character limit. -/
theorem C5_overlong_value_stored :
    100 < longPid.length ∧
    (submit_data (some (Json.obj fieldsLongPid)) []).1.status = 201 ∧
    (submit_data (some (Json.obj fieldsLongPid)) []).2 =
      [{ id := some 1, participant_id := Json.str longPid,
         task_type := Json.str "stroop_congruent",
         stimulus_word := Json.str "RED", stimulus_color := Json.str "red",
         response_time := Json.null, key_press := Json.null,
         was_correct := Json.null, avg_blink_rate := Json.null }] :=
  ⟨by decide, rfl, rfl⟩

/-- C6: the store is append-only — every request leaves the previous rows as
a prefix of the new store, each pre-existing row (position and field values)
unchanged; rows are only ever added. -/
theorem C6_append_only (body : Option Json) (store : List TrialResult) :
    ∃ suffix, (submit_data body store).2 = store ++ suffix ∧
      ∀ i, i < store.length → ((submit_data body store).2)[i]? = store[i]? := by
  have key : ∃ suffix, (submit_data body store).2 = store ++ suffix := by
    cases hc : submit_data_core body store with
    | error e => exact ⟨[], by simp [submit_data, hc]⟩
    | ok r =>
      rcases core_ok_cases body store r hc with ⟨_, h2⟩ | ⟨_, pending, h2⟩
      · exact ⟨[], by simp [submit_data, hc, h2]⟩
      · exact ⟨assignIds (store.length + 1) pending,
          by simp [submit_data, hc, h2]⟩
  obtain ⟨suffix, hs⟩ := key
  exact ⟨suffix, hs, fun i hi => by rw [hs, List.getElem?_append_left hi]⟩

/-- C7: round-trip — in a valid persisted submission, the i-th trial object,
submitted with all optional fields present, is stored as the i-th new row
with value-identical optional fields, so reading that row back from the
store yields exactly the submitted values. -/
theorem C7_roundtrip_optionals (fields : List (String × Json)) (pid : String)
    (ts : List Json) (store : List TrialResult)
    (h1 : List.lookup "participant_id" fields = some (Json.str pid))
    (h2 : pid ≠ "")
    (h3 : List.lookup "trials" fields = some (Json.arr ts))
    (h4 : ts ≠ [])
    (h5 : ∀ t ∈ ts, t.isObj = true)
    (h6 : ∀ t ∈ ts, rowNotNullOk (mkRow (Json.str pid) t) = true)
    (i : Nat) (tf : List (String × Json)) (rt kp wc ab : Json)
    (h7 : ts[i]? = some (Json.obj tf))
    (hrt : List.lookup "response_time" tf = some rt)
    (hkp : List.lookup "key_press" tf = some kp)
    (hwc : List.lookup "was_correct" tf = some wc)
    (hab : List.lookup "avg_blink_rate" tf = some ab) :
    ∃ r, ((submit_data (some (Json.obj fields)) store).2)[store.length + i]? =
        some r ∧
      r.response_time = rt ∧ r.key_press = kp ∧
      r.was_correct = wc ∧ r.avg_blink_rate = ab := by
  refine ⟨{ mkRow (Json.str pid) (Json.obj tf) with
      id := some (store.length + 1 + i) }, ?_,
    by simp [mkRow, objGet, hrt], by simp [mkRow, objGet, hkp],
    by simp [mkRow, objGet, hwc], by simp [mkRow, objGet, hab]⟩
  rw [submit_data_valid_eval fields pid ts store h1 h2 h3 h4 h5 h6]
  show (store ++ assignIds (store.length + 1)
      (ts.map (mkRow (Json.str pid))))[store.length + i]? = _
  rw [List.getElem?_append_right (by omega),
    show store.length + i - store.length = i by omega,
    assignIds_getElem?, List.getElem?_map, h7]
  rfl

/-- C7 witness: the full §8 trial read back at index 0 of the fresh store. -/
theorem C7_witness :
    ∃ r, ((submit_data (some (Json.obj fieldsFull)) []).2)[0]? = some r ∧
      r.response_time = Json.num 1 ∧ r.key_press = Json.str "r" ∧
      r.was_correct = Json.bool true ∧ r.avg_blink_rate = Json.num 14 :=
  C7_roundtrip_optionals fieldsFull "P1" [trialFull] [] rfl (by decide) rfl
    (List.cons_ne_nil _ _) (by decide) (by decide) 0 trialFullFields
    (Json.num 1) (Json.str "r") (Json.bool true) (Json.num 14)
    rfl rfl rfl rfl rfl

/-- C8: for every request — any parse result and any store — the handler
returns one of the specified responses: status 201, 400 or 500; no failure
escapes the endpoint boundary. -/
theorem C8_total_response (body : Option Json) (store : List TrialResult) :
    (submit_data body store).1.status = 201 ∨
    (submit_data body store).1.status = 400 ∨
    (submit_data body store).1.status = 500 := by
  cases hc : submit_data_core body store with
  | error e => right; right; simp [submit_data, hc]
  | ok r =>
    rcases core_ok_cases body store r hc with ⟨h1, _⟩ | ⟨h1, _⟩
    · right; left; simpa [submit_data, hc] using h1
    · left; simpa [submit_data, hc] using h1

/-- C9: every row created by a request carries the request's top-level
`participant_id`; a `participant_id` key inside an individual trial object
(here bound to an arbitrary value `w`) is ignored, so all rows of the batch
share the top-level id. -/
theorem C9_toplevel_pid_wins (fields : List (String × Json)) (pid : String)
    (ts : List Json) (store : List TrialResult)
    (h1 : List.lookup "participant_id" fields = some (Json.str pid))
    (h2 : pid ≠ "")
    (h3 : List.lookup "trials" fields = some (Json.arr ts))
    (h4 : ts ≠ [])
    (h5 : ∀ t ∈ ts, t.isObj = true)
    (h6 : ∀ t ∈ ts, rowNotNullOk (mkRow (Json.str pid) t) = true)
    (t : Json) (tf : List (String × Json)) (w : Json)
    (ht2 : t ∈ ts) (htf : t = Json.obj tf)
    (hw : List.lookup "participant_id" tf = some w) :
    ∃ newRows,
      submit_data (some (Json.obj fields)) store =
        ({ status := 201, body := successBody ts.length }, store ++ newRows) ∧
      ∀ r ∈ newRows, r.participant_id = Json.str pid := by
  refine ⟨assignIds (store.length + 1) (ts.map (mkRow (Json.str pid))),
    submit_data_valid_eval fields pid ts store h1 h2 h3 h4 h5 h6, ?_⟩
  intro r hr
  obtain ⟨m, r0, hr0, rfl⟩ := mem_assignIds _ _ _ hr
  obtain ⟨u, hu, rfl⟩ := List.mem_map.mp hr0
  rfl

/-- C9 witness: the single trial claims participant "OTHER", yet the stored
row carries the top-level "P1". -/
theorem C9_witness :
    ∃ newRows,
      submit_data (some (Json.obj fieldsOtherPid)) [] =
        ({ status := 201, body := successBody 1 }, [] ++ newRows) ∧
      ∀ r ∈ newRows, r.participant_id = Json.str "P1" :=
  C9_toplevel_pid_wins fieldsOtherPid "P1" [trialOtherPid] [] rfl (by decide)
    rfl (List.cons_ne_nil _ _) (by decide) (by decide) trialOtherPid
    [("participant_id", Json.str "OTHER"),
     ("task_type", Json.str "stroop_congruent"),
     ("stimulus_word", Json.str "RED"), ("stimulus_color", Json.str "red")]
    (Json.str "OTHER") (List.mem_cons_self _ _) rfl rfl

/-- C10: when `trials` is present and truthy but is not an array of JSON
objects (a non-array value, or an array with a non-object element), the
request is not answered with the 400 validation error: processing raises,
the endpoint answers HTTP 500 and the store is unchanged. -/
theorem C10_nonobject_trials_500 (fields : List (String × Json))
    (store : List TrialResult) (p trials : Json)
    (h1 : List.lookup "participant_id" fields = some p)
    (h2 : List.lookup "trials" fields = some trials)
    (hp : truthy p = true)
    (ht : truthy trials = true)
    (hbad : ∀ elems, trials = Json.arr elems → ∃ t ∈ elems, t.isObj = false) :
    (submit_data (some (Json.obj fields)) store).1.status = 500 ∧
    (submit_data (some (Json.obj fields)) store).2 = store ∧
    ¬ (submit_data (some (Json.obj fields)) store).1.status = 400 := by
  have hcore : ∃ e, submit_data_core (some (Json.obj fields)) store =
      .error e := by
    cases trials with
    | null => simp [truthy] at ht
    | bool b =>
      exact ⟨.typeError "object is not iterable",
        by simp [submit_data_core, pyGet, h1, h2, hp, ht, pyIter,
          ebind_ok, ebind_err]⟩
    | num q =>
      exact ⟨.typeError "object is not iterable",
        by simp [submit_data_core, pyGet, h1, h2, hp, ht, pyIter,
          ebind_ok, ebind_err]⟩
    | str s =>
      cases s with
      | mk cdata =>
        cases cdata with
        | nil => exact absurd ht (by decide)
        | cons c cs =>
          have hex : ∃ t ∈ ((String.mk (c :: cs)).data.map
              fun ch => Json.str (String.mk [ch])), t.isObj = false :=
            ⟨Json.str (String.mk [c]),
              List.mem_map_of_mem _ (List.mem_cons_self c cs), rfl⟩
          obtain ⟨e, he⟩ := mapRows_error_of_nonobj p _ hex
          have he2 : mapRows p (Json.str (String.mk [c]) ::
              cs.map (fun ch => Json.str (String.mk [ch]))) =
              Except.error e := he
          exact ⟨e, by simp [submit_data_core, pyGet, h1, h2, hp, ht, pyIter,
            ebind_ok, ebind_err, he2]⟩
    | arr elems =>
      obtain ⟨e, he⟩ := mapRows_error_of_nonobj p elems (hbad elems rfl)
      exact ⟨e, by simp [submit_data_core, pyGet, h1, h2, hp, ht, pyIter,
        ebind_ok, ebind_err, he]⟩
    | obj fs2 =>
      cases fs2 with
      | nil => exact absurd ht (by decide)
      | cons q qs =>
        have hex : ∃ t ∈ ((q :: qs).map fun pr => Json.str pr.1),
            t.isObj = false :=
          ⟨Json.str q.1, List.mem_map_of_mem _ (List.mem_cons_self q qs), rfl⟩
        obtain ⟨e, he⟩ := mapRows_error_of_nonobj p _ hex
        have he2 : mapRows p (Json.str q.1 ::
            qs.map (fun pr => Json.str pr.1)) = Except.error e := he
        exact ⟨e, by simp [submit_data_core, pyGet, h1, h2, hp, ht, pyIter,
          ebind_ok, ebind_err, he2]⟩
  obtain ⟨e, he⟩ := hcore
  simp [submit_data, he]

/-- C10 witness: `trials` is the non-empty string "abc": 500, store
unchanged, not 400. -/
theorem C10_witness :
    (submit_data (some (Json.obj fieldsStrTrials)) []).1.status = 500 ∧
    (submit_data (some (Json.obj fieldsStrTrials)) []).2 = [] ∧
    ¬ (submit_data (some (Json.obj fieldsStrTrials)) []).1.status = 400 :=
  C10_nonobject_trials_500 fieldsStrTrials [] (Json.str "P1") (Json.str "abc")
    rfl rfl (by decide) (by decide) (fun elems h => nomatch h)

end MciApp
